import Mathlib

/-!
# Verification of the collision subsystem of `karThree_02_ci4321`

Shallow embedding, over exact rationals, of the collision-adjacent code of the
repository:

* `src/utils/utils.ts` — vector math, reflection, penetration resolution and
  the AABB overlap test (`three.js` `Box3` semantics);
* `src/utils/colliding.ts` — the `Colliding` registry (active list, deferred
  removal set, the per-tick all-pairs sweep `checkCollision`);
* the per-entity `isColliding` handlers of `walls.ts`, `trafficCone.ts`,
  `bomb.ts`, `RaceTrackClass.ts` and the `Shuriken` class, together with
  `Bomb.explode`.

Modelling conventions, stated once here:

* Scalars are `ℚ`.  The JavaScript code computes with IEEE doubles; every
  concrete scenario evaluated below stays inside the exactly-representable
  fragment, and general theorems are stated so that no rounding question
  arises (squared norms, unit-norm hypotheses).
* `three.js` square roots (`Vector3.length`, used through `normalize`) are
  modelled by `ratSqrt`, which is exact on rationals that are perfect squares
  of rationals; every place a theorem below depends on a length, the length is
  a perfect square (unit vectors, the concrete speeds 5 and 4).
* Scene-graph parents of movable objects are the scene itself, so
  `getWorldPosition` is the stored position and `parent.worldToLocal` is the
  identity.  Entity orientations are carried as an explicit world `forward`
  vector (the image of local `+Z` under the object's world quaternion); the
  embedding covers the axis-aligned configurations (rotations that are
  multiples of `π` about `Y` for walls), for which the world AABB is the
  translated local box and `forward` is `(0,0,±1)`.
* `scene.add`/`scene.remove` of an entity's mesh is the Boolean `inScene`
  of its state.
* The `PowerUp` pickup's handler re-enters the world through a global
  singleton and `Math.random` (`kart.setPowerUps` constructs and registers new
  projectiles mid-sweep); it is outside the entity universe modelled here.
  All other handlers touch only entity state, the scene flag and the
  registry's deferred-removal set.
-/

/-- A 3-component vector with rational components
(`THREE.Vector3` restricted to exact values). -/
structure Vec3 where
  x : ℚ
  y : ℚ
  z : ℚ
deriving DecidableEq, Repr

namespace Vec3

/-- Componentwise addition (`Vector3.add`). -/
def add (a b : Vec3) : Vec3 := ⟨a.x + b.x, a.y + b.y, a.z + b.z⟩

/-- Componentwise subtraction (`Vector3.sub`). -/
def sub (a b : Vec3) : Vec3 := ⟨a.x - b.x, a.y - b.y, a.z - b.z⟩

/-- Scalar multiple (`Vector3.multiplyScalar`). -/
def smul (s : ℚ) (a : Vec3) : Vec3 := ⟨s * a.x, s * a.y, s * a.z⟩

/-- Dot product (`Vector3.dot`). -/
def dot (a b : Vec3) : ℚ := a.x * b.x + a.y * b.y + a.z * b.z

/-- Squared euclidean norm (`Vector3.lengthSq`). -/
def normSq (a : Vec3) : ℚ := dot a a

/-- `Vector3.addScaledVector`. -/
def addScaled (a : Vec3) (b : Vec3) (s : ℚ) : Vec3 := add a (smul s b)

/-- The zero vector. -/
def zero : Vec3 := ⟨0, 0, 0⟩

end Vec3

/-- Floor square root on naturals (structurally recursive so that concrete
instances reduce inside the kernel): the largest `k ≤ n` with `k * k ≤ n`. -/
def natSqrt (n : ℕ) : ℕ :=
  (List.range (n + 1)).foldl (fun acc k => if k * k ≤ n then k else acc) 0

/-- Exact rational square root: on a nonnegative rational that is the square
of a rational, returns that (nonnegative) square root.  Models the real
square root used by `Vector3.length`; all lengths taken in this development
are perfect squares, so no approximation is ever observed. -/
def ratSqrt (q : ℚ) : ℚ :=
  (natSqrt q.num.toNat : ℚ) / (natSqrt q.den : ℚ)

/-- `Vector3.length` (see `ratSqrt` for the square-root model). -/
def Vec3.length (a : Vec3) : ℚ := ratSqrt a.normSq

/-- `Vector3.normalize`: `three.js` divides by `length() || 1`, so the zero
vector is left unchanged rather than producing NaN. -/
def Vec3.normalize (a : Vec3) : Vec3 :=
  let l := a.length
  Vec3.smul (1 / (if l = 0 then 1 else l)) a

/-- An axis-aligned box with `min`/`max` corners (`THREE.Box3`). -/
structure Box3 where
  min : Vec3
  max : Vec3
deriving DecidableEq, Repr

namespace Box3

/-- `Box3.intersectsBox`: overlap on all three axes, inclusive bounds. -/
def intersectsBox (a b : Box3) : Bool :=
  decide (a.min.x ≤ b.max.x) && decide (b.min.x ≤ a.max.x) &&
  decide (a.min.y ≤ b.max.y) && decide (b.min.y ≤ a.max.y) &&
  decide (a.min.z ≤ b.max.z) && decide (b.min.z ≤ a.max.z)

/-- Translate a box (the effect of `applyMatrix4` with a pure translation). -/
def translate (b : Box3) (p : Vec3) : Box3 :=
  ⟨Vec3.add b.min p, Vec3.add b.max p⟩

/-- Scale a box about the origin by a uniform factor (the effect of
`applyMatrix4` with a uniform scale); corners are re-ordered per axis as the
corner-transforming `applyMatrix4` does. -/
def scaleUniform (s : ℚ) (b : Box3) : Box3 :=
  ⟨⟨Min.min (s * b.min.x) (s * b.max.x), Min.min (s * b.min.y) (s * b.max.y),
    Min.min (s * b.min.z) (s * b.max.z)⟩,
   ⟨Max.max (s * b.min.x) (s * b.max.x), Max.max (s * b.min.y) (s * b.max.y),
    Max.max (s * b.min.z) (s * b.max.z)⟩⟩

/-- `Box3.union`. -/
def union (a b : Box3) : Box3 :=
  ⟨⟨Min.min a.min.x b.min.x, Min.min a.min.y b.min.y, Min.min a.min.z b.min.z⟩,
   ⟨Max.max a.max.x b.max.x, Max.max a.max.y b.max.y, Max.max a.max.z b.max.z⟩⟩

end Box3

/-! ## Vector math of `src/utils/utils.ts`

The source functions take scene objects and extract a direction, a facing
vector or a world position from them; the embedded functions below take those
extracted values directly. -/

/-- `getPushDirection(objectA, objectB)`: normalized vector from `objectA`'s
world position towards `objectB`'s. -/
def getPushDirection (posA posB : Vec3) : Vec3 :=
  (Vec3.sub posB posA).normalize

/-- `getMovementDirectionWorld` for a projectile carrying `velocity`: the
normalized velocity when `lengthSq > 0.000001`, otherwise the object's world
forward vector (the fallback branch). -/
def getMovementDirectionWorld (velocity forward : Vec3) : Vec3 :=
  if (1 : ℚ)/1000000 < velocity.normSq then velocity.normalize
  else forward.normalize

/-- The normal-resolution step shared by `reflectDirection` and
`resolvePenetrationProyectil`: flip `n` when it points the same way as the
incoming direction `v` (`v.dot(n) > 0`). -/
def resolvedNormal (v n : Vec3) : Vec3 :=
  if 0 < Vec3.dot v n then Vec3.smul (-1) n else n

/-- `reflectDirection`: the incoming direction `v` is reflected against the
static object's facing vector `n`; `n` is flipped first when it points the
same way as `v` (`dot > 0`), and the result is normalized
(`R = V - 2*(V·N)*N`). -/
def reflectDirection (v n : Vec3) : Vec3 :=
  (Vec3.sub v
    (Vec3.smul (2 * Vec3.dot v (resolvedNormal v n)) (resolvedNormal v n))).normalize

/-- The value inside `reflectDirection` before its final `.normalize()`. -/
def reflectDirectionRaw (v n : Vec3) : Vec3 :=
  Vec3.sub v
    (Vec3.smul (2 * Vec3.dot v (resolvedNormal v n)) (resolvedNormal v n))

/-- `resolvePenetrationKart(reflect, staticObject, strength)`: nudge the
mover's world position by `strength` along the static object's (unflipped)
facing vector; parent space is the world (see header).  Returns the mover's
new position. -/
def resolvePenetrationKart (moverPos staticForward : Vec3) (strength : ℚ) : Vec3 :=
  Vec3.addScaled moverPos staticForward strength

/-- `resolvePenetrationProyectil(reflect, staticObject, strength)`: the
obstacle facing vector is flipped to oppose the arrival direction, then the
projectile is nudged by `strength` along it.  Returns the new position. -/
def resolvePenetrationProyectil (moverPos arrivalDir staticForward : Vec3)
    (strength : ℚ) : Vec3 :=
  Vec3.addScaled moverPos (resolvedNormal arrivalDir staticForward) strength

/-- `resolvePenetrationObstacles(reflect, obstacles, strength)`: push
direction from the obstacle towards the mover, vertical component zeroed
after normalization; a zero push vector returns the position unchanged.
Returns the mover's new position. -/
def resolvePenetrationObstacles (moverPos obstaclePos : Vec3) (strength : ℚ) : Vec3 :=
  let pushDir := getPushDirection obstaclePos moverPos
  let pushDir : Vec3 := ⟨pushDir.x, 0, pushDir.z⟩
  if pushDir.normSq = 0 then moverPos
  else Vec3.addScaled moverPos pushDir strength

/-! ## Entity states

One structure per collidable class, holding the fields the collision code
reads or writes.  Visual-only fields (textures, wireframes, fuse colors) are
kept only where a claim speaks about them (the bomb's explosion look). -/

/-- Collision-relevant state of `Kart` (`kart.ts`). -/
structure KartState where
  position : Vec3
  speed : ℚ
  maxSpeed : ℚ
  steeringAngle : ℚ
deriving DecidableEq, Repr

/-- Collision-relevant state of `Walls` (`walls.ts`): transform and the
configured dimensions fixed in the constructor. -/
structure WallState where
  position : Vec3
  /-- World forward (`+Z` rotated by the wall's world quaternion); `(0,0,1)`
  for an unrotated wall, `(0,0,-1)` for one rotated by `π` about `Y`. -/
  forward : Vec3
  wallLength : ℚ
  wallHeight : ℚ
  wallThickness : ℚ
deriving DecidableEq, Repr

/-- Collision-relevant state of `TrafficCone` (`trafficCone.ts`). -/
structure ConeState where
  position : Vec3
  inScene : Bool
deriving DecidableEq, Repr

/-- Collision-relevant state of `Shuriken`. -/
structure ShurikenState where
  position : Vec3
  velocity : Vec3
  /-- World forward of the mesh; read only by the near-zero-velocity fallback
  of `getMovementDirectionWorld`. -/
  forward : Vec3
  crashed : Bool
  launched : Bool
  bounces : ℕ
  inScene : Bool
deriving DecidableEq, Repr

/-- Which texture set the bomb's material currently uses (`bomb.*` at
construction, `bomb.lava.*` after `explode`). -/
inductive BombMaterial
  | bombTex
  | lavaTex
deriving DecidableEq, Repr

/-- Collision-relevant state of `Bomb` (`bomb.ts`), including the visual
fields `explode` writes so that idempotence of the explosion covers the
material swap and the scale change. -/
structure BombState where
  position : Vec3
  velocity : Vec3
  direction : Vec3
  timer : ℚ
  exploded : Bool
  launched : Bool
  explosionElapsed : ℚ
  cleanupScheduled : Bool
  explosionStartScale : ℚ
  /-- Uniform mesh scale (`mesh.scale`, kept uniform by the code). -/
  scale : ℚ
  hasFuse : Bool
  matMap : BombMaterial
  matNormalMap : BombMaterial
  matOpacity : ℚ
  matTransparent : Bool
  matEmissiveHex : ℕ
  matEmissiveIntensity : ℚ
  inScene : Bool
deriving DecidableEq, Repr

/-- Collision-relevant state of `RaceTrack` (`RaceTrackClass.ts`): a plane of
the configured size, rotated flat onto the XZ plane. -/
structure TrackState where
  position : Vec3
  trackWidth : ℚ
  trackLength : ℚ
deriving DecidableEq, Repr

/-- The closed universe of registered collidables
(`CollisionClassName` without `PowerUp`; see the header). -/
inductive Entity
  | kart (s : KartState)
  | wall (s : WallState)
  | cone (s : ConeState)
  | shuriken (s : ShurikenState)
  | bomb (s : BombState)
  | track (s : TrackState)
deriving DecidableEq, Repr

/-! ## World-space AABBs

`worldAABB_Mesh`/`worldAABB_Group` of `utils.ts` transform cached local-space
boxes by the world matrix.  Local boxes below are computed from the geometry
each constructor builds; world boxes apply the entity's (axis-aligned)
transform. -/

/-- Local box of the kart chassis `BoxGeometry(2, 1, 4.5)` translated by
`(0, 1/3, 0)`.  The kart group in `kart.ts` also unions some twenty
decorative meshes whose `π/4`- and `π/16`-rotated bounds are irrational; this
embedding keeps the dominant axis-aligned chassis box.  No theorem below
evaluates the kart's box. -/
def kartLocalBox : Box3 :=
  ⟨⟨-1, 1/3 - 1/2, -9/4⟩, ⟨1, 1/3 + 1/2, 9/4⟩⟩

/-- World box of the kart. -/
def kartWorldBox (k : KartState) : Box3 := kartLocalBox.translate k.position

/-- World box of a wall: `BoxGeometry(length, height, thickness)` translated
to the wall's position (axis-aligned configurations, see header). -/
def wallWorldBox (w : WallState) : Box3 :=
  (Box3.translate
    ⟨⟨-w.wallLength/2, -w.wallHeight/2, -w.wallThickness/2⟩,
     ⟨w.wallLength/2, w.wallHeight/2, w.wallThickness/2⟩⟩ w.position)

/-- Local box of the traffic-cone group before its `0.5` scale: union of the
cone body `ConeGeometry(0.5, 2, 8)`, the base `BoxGeometry(1.2, 0.2, 1.2)` at
`(0,-1,0)` and the three white band cylinders (`buildTrafficCone`). -/
def coneLocalBox : Box3 :=
  (Box3.union ⟨⟨-1/2, -1, -1/2⟩, ⟨1/2, 1, 1/2⟩⟩
  (Box3.union ⟨⟨-3/5, -11/10, -3/5⟩, ⟨3/5, -9/10, 3/5⟩⟩
  (Box3.union ⟨⟨-21/50, -13/20, -21/50⟩, ⟨21/50, -7/20, 21/50⟩⟩
  (Box3.union ⟨⟨-31/100, -3/20, -31/100⟩, ⟨31/100, 3/20, 31/100⟩⟩
              ⟨⟨-19/100, 7/20, -19/100⟩, ⟨19/100, 13/20, 19/100⟩⟩))))

/-- World box of a traffic cone: local union scaled by the group's `0.5`
scale, translated to its position. -/
def coneWorldBox (c : ConeState) : Box3 :=
  (Box3.scaleUniform (1/2) coneLocalBox).translate c.position

/-- Local box of the shuriken mesh: bounds of the vertex array of
`shurikenInfo.ts` — `x, z ∈ [-6, 6]` (the four star tips `v32..v35` and
`v72..v75`), `y ∈ [1, 2]` (the lower face at `y = 1`, the upper at `y = 2`). -/
def shurikenLocalBox : Box3 := ⟨⟨-6, 1, -6⟩, ⟨6, 2, 6⟩⟩

/-- World box of a shuriken: local bounds under the constructor's `0.1` mesh
scale, translated to its position. -/
def shurikenWorldBox (s : ShurikenState) : Box3 :=
  (Box3.scaleUniform (1/10) shurikenLocalBox).translate s.position

/-- World box of a bomb: the sphere geometry's `±0.5` box under the current
mesh scale, translated to its position.  The fuse is a child of the bomb
mesh, and `aabbIntersects` takes the mesh branch (`worldAABB_Mesh`), which
looks only at the mesh's own geometry. -/
def bombWorldBox (b : BombState) : Box3 :=
  (Box3.scaleUniform b.scale ⟨⟨-1/2, -1/2, -1/2⟩, ⟨1/2, 1/2, 1/2⟩⟩).translate b.position

/-- World box of the race track: `PlaneGeometry(width, length)` rotated flat
by `-π/2` about `X` (exact: the local XY plane becomes the XZ plane),
translated to its position. -/
def trackWorldBox (t : TrackState) : Box3 :=
  (Box3.translate ⟨⟨-t.trackWidth/2, 0, -t.trackLength/2⟩,
                   ⟨t.trackWidth/2, 0, t.trackLength/2⟩⟩ t.position)

/-- World box of any entity (`worldAABB_Mesh` / `worldAABB_Group`). -/
def worldBoxOf : Entity → Box3
  | .kart s => kartWorldBox s
  | .wall s => wallWorldBox s
  | .cone s => coneWorldBox s
  | .shuriken s => shurikenWorldBox s
  | .bomb s => bombWorldBox s
  | .track s => trackWorldBox s

/-- `aabbIntersects(a, b)` of `utils.ts`: world matrices are forced up to
date (our states are always current) and the two world boxes are tested. -/
def aabbIntersects (a b : Entity) : Bool :=
  Box3.intersectsBox (worldBoxOf a) (worldBoxOf b)

/-! ## Entity collision handlers

One function per `isColliding` method.  Each returns the updated self state,
the (possibly updated) candidate, and whether the handler requested its own
deferred removal (`collisionObserver.addObjectToRemove(this)`) — the only
registry operation any handler performs. -/

/-- `Bomb.explode` (private method of `bomb.ts`): guarded by the `exploded`
flag; resets the explosion animation, drops the fuse, swaps the material to
the lava look and collapses the mesh to the explosion start scale. -/
def bombExplode (b : BombState) : BombState :=
  if b.exploded then b
  else
    { b with
      exploded := true
      explosionElapsed := 0
      cleanupScheduled := false
      explosionStartScale := 1/10
      hasFuse := false
      matMap := .lavaTex
      matNormalMap := .lavaTex
      matOpacity := 1
      matTransparent := true
      matEmissiveHex := 0xFF7F32
      matEmissiveIntensity := 1/2
      scale := 1/10 }

/-- `Walls.isColliding(target)`: reacts only to a `Kart`; on overlap the kart
is pushed out along the wall's facing vector with strength `0.01` and its
speed is halved. -/
def wallsIsColliding (self : WallState) (target : Entity) :
    WallState × Entity × Bool :=
  match target with
  | .kart k =>
    if aabbIntersects (.wall self) (.kart k) then
      (self,
       .kart { k with
               position := resolvePenetrationKart k.position self.forward (1/100)
               speed := k.speed * (1/2) },
       false)
    else (self, .kart k, false)
  | t => (self, t, false)

/-- `TrafficCone.isColliding(target)`: hit by a `Shuriken` or a launched
`Bomb`, the cone leaves the scene and schedules its own removal; a colliding
`Kart` is pushed out (push-vector variant, strength `0.01`) and slowed. -/
def trafficConeIsColliding (self : ConeState) (target : Entity) :
    ConeState × Entity × Bool :=
  match target with
  | .shuriken s =>
    if aabbIntersects (.cone self) (.shuriken s) then
      ({ self with inScene := false }, .shuriken s, true)
    else (self, .shuriken s, false)
  | .bomb b =>
    if b.launched && aabbIntersects (.cone self) (.bomb b) then
      ({ self with inScene := false }, .bomb b, true)
    else (self, .bomb b, false)
  | .kart k =>
    if aabbIntersects (.cone self) (.kart k) then
      (self,
       .kart { k with
               position := resolvePenetrationObstacles k.position self.position (1/100)
               speed := k.speed * (1/2) },
       false)
    else (self, .kart k, false)
  | t => (self, t, false)

/-- `Shuriken.isColliding(target)`: a traffic cone detaches the shuriken and
schedules its removal (the splice into the launching kart's projectile list
touches state outside this model and is relied on by no claim); a wall, when
the shuriken is launched, resolves penetration (strength `0.05`), reflects
the velocity with the `0.8` energy-retention factor, increments the bounce
count and removes the shuriken once `bounces > 2`. -/
def shurikenIsColliding (self : ShurikenState) (target : Entity) :
    ShurikenState × Entity × Bool :=
  match target with
  | .cone c =>
    if aabbIntersects (.shuriken self) (.cone c) then
      ({ self with inScene := false }, .cone c, true)
    else (self, .cone c, false)
  | .wall w =>
    if self.launched && aabbIntersects (.shuriken self) (.wall w) then
      let dir := getMovementDirectionWorld self.velocity self.forward
      let pos' := resolvePenetrationProyectil self.position dir w.forward (1/20)
      let speed := self.velocity.length
      let reflectedDir := reflectDirection dir w.forward
      let vel' := Vec3.smul (speed * (8/10)) reflectedDir
      let bounces' := self.bounces + 1
      if 2 < bounces' then
        ({ self with position := pos', velocity := vel', bounces := bounces',
                     inScene := false }, .wall w, true)
      else
        ({ self with position := pos', velocity := vel', bounces := bounces' },
         .wall w, false)
    else (self, .wall w, false)
  | t => (self, t, false)

/-- `Bomb.isColliding(target)`: inert once exploded; a launched bomb
overlapping a traffic cone or a wall triggers its own `explode`. -/
def bombIsColliding (self : BombState) (target : Entity) :
    BombState × Entity × Bool :=
  if self.exploded then (self, target, false)
  else
    match target with
    | .cone c =>
      if self.launched && aabbIntersects (.bomb self) (.cone c) then
        (bombExplode self, .cone c, false)
      else (self, .cone c, false)
    | .wall w =>
      if self.launched && aabbIntersects (.bomb self) (.wall w) then
        (bombExplode self, .wall w, false)
      else (self, .wall w, false)
    | t => (self, t, false)

/-- `RaceTrack.isColliding(target)`: a launched bomb touching the track has
its `explode` triggered. -/
def raceTrackIsColliding (self : TrackState) (target : Entity) :
    TrackState × Entity × Bool :=
  match target with
  | .bomb b =>
    if b.launched && aabbIntersects (.track self) (.bomb b) then
      (self, .bomb (bombExplode b), false)
    else (self, .bomb b, false)
  | t => (self, t, false)

/-- Dynamic dispatch of `objA.isColliding(objB)` on `objA`'s class.  `Kart`
defines no `isColliding`; the registry's sweep never calls one on it (the
`instanceof Kart` guard), so the kart row is the identity. -/
def isCollidingEnt (a b : Entity) : Entity × Entity × Bool :=
  match a with
  | .kart s => (.kart s, b, false)
  | .wall s => let r := wallsIsColliding s b; (.wall r.1, r.2.1, r.2.2)
  | .cone s => let r := trafficConeIsColliding s b; (.cone r.1, r.2.1, r.2.2)
  | .shuriken s => let r := shurikenIsColliding s b; (.shuriken r.1, r.2.1, r.2.2)
  | .bomb s => let r := bombIsColliding s b; (.bomb r.1, r.2.1, r.2.2)
  | .track s => let r := raceTrackIsColliding s b; (.track r.1, r.2.1, r.2.2)

/-! ## The collision registry (`src/utils/colliding.ts`)

Registered objects are referenced by identity; here an entity id is its index
into a backing store.  `colisionObjects` is the ordered list of registered
ids (duplicates possible — `addColisionObject` performs no duplicate check);
`objectsRemove` is the deferred-removal `Set`, a duplicate-free list in
insertion order. -/

/-- The world: backing store of entity states, the registry's active list,
and its deferred-removal set. -/
structure World where
  store : List Entity
  active : List Nat
  pending : List Nat
deriving DecidableEq, Repr

/-- JS `Set.add`: append unless already present. -/
def addToPending (p : List Nat) (id : Nat) : List Nat :=
  if id ∈ p then p else p ++ [id]

/-- The kind tag of an entity. -/
inductive EntKind
  | kart
  | wall
  | cone
  | shuriken
  | bomb
  | track
deriving DecidableEq, Repr

/-- Kind of an entity. -/
def Entity.kind : Entity → EntKind
  | .kart _ => .kart
  | .wall _ => .wall
  | .cone _ => .cone
  | .shuriken _ => .shuriken
  | .bomb _ => .bomb
  | .track _ => .track

/-- Kind of the entity registered under `id`, if any. -/
def kindAt (store : List Entity) (id : Nat) : Option EntKind :=
  (store.get? id).map Entity.kind

/-- `objA instanceof Kart` for the entity registered under `id`. -/
def isKartAt (store : List Entity) (id : Nat) : Bool :=
  kindAt store id = some EntKind.kart

/-- One call `objA.isColliding(objB)` acting on the world: the two referenced
states are read, the handler runs, both updated states are written back and a
requested self-removal is added to the deferred set.  Handlers never touch
the active list. -/
def dispatch (w : World) (aId bId : Nat) : World :=
  match w.store.get? aId, w.store.get? bId with
  | some a, some b =>
    let r := isCollidingEnt a b
    { w with
      store := (w.store.set bId r.2.1).set aId r.1
      pending := if r.2.2 then addToPending w.pending aId else w.pending }
  | _, _ => w

/-- `removeColisionObject(object)`: remove the first occurrence (JS
`indexOf` + `splice`), a no-op when absent. -/
def removeColisionObject (active : List Nat) (id : Nat) : List Nat :=
  List.erase active id

/-- `removeSelectedObjects()`: apply every deferred removal in insertion
order, then clear the set. -/
def removeSelectedObjects (w : World) : World :=
  { w with
    active := w.pending.foldl removeColisionObject w.active
    pending := [] }

/-- The inner `for (j ...)` loop of `checkCollision` for a fixed outer index
`i` and outer object `aId`, iterating over the indexed active list: skips
`i === j`, skips the call when `objA` is a `Kart`, otherwise dispatches and
records the invocation in the ghost trace. -/
def innerLoop (i : Nat) (aId : Nat) :
    List (Nat × Nat) → World → World × List (Nat × Nat)
  | [], w => (w, [])
  | (j, bId) :: rest, w =>
    if i = j then innerLoop i aId rest w
    else if isKartAt w.store aId then innerLoop i aId rest w
    else
      let w' := dispatch w aId bId
      let r := innerLoop i aId rest w'
      (r.1, (aId, bId) :: r.2)

/-- The outer `for (i ...)` loop of `checkCollision`: reads `objA` at index
`i` and runs the inner loop against the whole indexed active list.  Handlers
never mutate `colisionObjects` (they only defer removals), so iterating the
entry list coincides with the live array the JS loop re-reads. -/
def outerLoop (entries : List (Nat × Nat)) :
    List (Nat × Nat) → World → World × List (Nat × Nat)
  | [], w => (w, [])
  | (i, aId) :: rest, w =>
    let r := innerLoop i aId entries w
    let r' := outerLoop entries rest r.1
    (r'.1, r.2 ++ r'.2)

/-- The double loop of `checkCollision` (everything before the final
`removeSelectedObjects`), returning the world and the ghost trace of
performed `isColliding` invocations in order. -/
def sweepLoops (w : World) : World × List (Nat × Nat) :=
  outerLoop w.active.enum w.active.enum w

/-- `Colliding.checkCollision()`: the all-pairs sweep, then deferred
removals. -/
def checkCollision (w : World) : World :=
  removeSelectedObjects (sweepLoops w).1

/-! ## Specification-side descriptions and concrete configurations -/

/-- The invocation list one sweep is specified to perform: for each entity
`A` of the active list in registration order (`pre` is the already-visited
prefix), for every other registered entity `B` in registration order, the
invocation `(A, B)` — except that an `A` of the Vehicle kind initiates no
call. -/
def tracePairs (store : List Entity) : List Nat → List Nat → List (Nat × Nat)
  | _, [] => []
  | pre, a :: post =>
    (if isKartAt store a then []
     else (pre ++ post).map (fun b => (a, b))) ++ tracePairs store (pre ++ [a]) post

/-- A launched shuriken at the origin moving in `-Z` with speed 5
(end-to-end scenario B). -/
def scenarioBShuriken : ShurikenState :=
  { position := ⟨0, 0, 0⟩, velocity := ⟨0, 0, -5⟩, forward := ⟨0, 0, 1⟩,
    crashed := false, launched := true, bounces := 0, inScene := true }

/-- A default-sized wall at the origin facing world `+Z`
(end-to-end scenario B). -/
def scenarioBWall : WallState :=
  { position := ⟨0, 0, 0⟩, forward := ⟨0, 0, 1⟩,
    wallLength := 10, wallHeight := 2, wallThickness := 1/20 }

/-- A launched shuriken that has already bounced twice (bounce-termination
witness). -/
def thirdBounceShuriken : ShurikenState :=
  { position := ⟨0, 0, 0⟩, velocity := ⟨0, 0, -5⟩, forward := ⟨0, 0, 1⟩,
    crashed := false, launched := true, bounces := 2, inScene := true }

/-- A traffic cone at the origin. -/
def originCone : ConeState := { position := ⟨0, 0, 0⟩, inScene := true }

/-- A projectile held in reserve (`launched = false`) overlapping the origin
cone. -/
def heldShuriken : ShurikenState :=
  { position := ⟨0, 0, 0⟩, velocity := ⟨0, 0, -1⟩, forward := ⟨0, 0, 1⟩,
    crashed := false, launched := false, bounces := 0, inScene := true }

/-- A bomb held in reserve (`launched = false`) at the origin. -/
def heldBomb : BombState :=
  { position := ⟨0, 0, 0⟩, velocity := ⟨0, 0, 0⟩, direction := ⟨0, 1, 0⟩,
    timer := 3, exploded := false, launched := false, explosionElapsed := 0,
    cleanupScheduled := false, explosionStartScale := 1/10, scale := 1,
    hasFuse := true, matMap := .bombTex, matNormalMap := .bombTex,
    matOpacity := 1, matTransparent := false, matEmissiveHex := 0,
    matEmissiveIntensity := 1, inScene := true }

/-- Store of the order-dependence configuration: a launched shuriken at the
origin between a wall whose near face it touches at `z = 0.575` and a wall
whose near face it touches at `z = -0.575` (its box reaches `z = ±0.6`). -/
def ricochetStore : List Entity :=
  [.shuriken scenarioBShuriken,
   .wall { position := ⟨0, 0, 3/5⟩, forward := ⟨0, 0, 1⟩,
           wallLength := 10, wallHeight := 2, wallThickness := 1/20 },
   .wall { position := ⟨0, 0, -3/5⟩, forward := ⟨0, 0, 1⟩,
           wallLength := 10, wallHeight := 2, wallThickness := 1/20 }]

/-- The ricochet configuration registered in order shuriken, front wall,
back wall. -/
def ricochetWorldA : World :=
  { store := ricochetStore, active := [0, 1, 2], pending := [] }

/-- The same entities registered with the two walls swapped. -/
def ricochetWorldB : World :=
  { store := ricochetStore, active := [0, 2, 1], pending := [] }

/-- A two-entity world — a cone and a launched shuriken overlapping it — in
which one tick schedules and applies removals (deferred-removal witness). -/
def removalWorld : World :=
  { store := [.cone originCone, .shuriken scenarioBShuriken],
    active := [0, 1], pending := [] }

/-- A wall overlapping the kart below (frame-condition witness). -/
def frameWall : WallState :=
  { position := ⟨0, 0, 0⟩, forward := ⟨0, 0, 1⟩,
    wallLength := 10, wallHeight := 2, wallThickness := 1/20 }

/-- A kart at the origin with speed 1 (frame-condition witness). -/
def frameKart : KartState :=
  { position := ⟨0, 0, 0⟩, speed := 1, maxSpeed := 3/10, steeringAngle := 0 }

/-- The race-track instance of `main.ts` (default `100 × 100` plane). -/
def groundTrack : TrackState := { position := ⟨0, 0, 0⟩, trackWidth := 100, trackLength := 100 }

attribute [local semireducible] Rat.add Rat.mul Rat.inv Rat.sub

/-! ## Vector algebra lemmas -/

theorem ratSqrt_one : ratSqrt 1 = 1 := by decide

theorem Vec3.smul_one (a : Vec3) : Vec3.smul 1 a = a := by
  cases a; simp [Vec3.smul]

/-- A vector of unit squared norm is left unchanged by `normalize`. -/
theorem Vec3.normalize_of_normSq_one (v : Vec3) (h : v.normSq = 1) :
    v.normalize = v := by
  unfold Vec3.normalize Vec3.length
  rw [h, ratSqrt_one]
  norm_num [Vec3.smul_one]

/-- The vector reflected by `reflectDirection` has, before the final
normalization, the same squared norm as the incoming vector whenever the
facing vector is unit. -/
theorem reflectDirectionRaw_normSq (v n : Vec3) (hn : n.normSq = 1) :
    (reflectDirectionRaw v n).normSq = v.normSq := by
  obtain ⟨vx, vy, vz⟩ := v
  obtain ⟨nx, ny, nz⟩ := n
  simp only [Vec3.normSq, Vec3.dot] at hn
  unfold reflectDirectionRaw resolvedNormal
  split <;>
    · simp only [Vec3.normSq, Vec3.dot, Vec3.sub, Vec3.smul]
      linear_combination (4 * (vx * nx + vy * ny + vz * nz) ^ 2) * hn

/-- Against a unit facing vector, the pre-normalization reflected vector's
component along the facing vector is exactly reversed (in either flip
branch of `resolvedNormal`). -/
theorem reflectDirectionRaw_dot (v n : Vec3) (hn : n.normSq = 1) :
    Vec3.dot (reflectDirectionRaw v n) n = -(Vec3.dot v n) := by
  obtain ⟨vx, vy, vz⟩ := v
  obtain ⟨nx, ny, nz⟩ := n
  simp only [Vec3.normSq, Vec3.dot] at hn
  unfold reflectDirectionRaw resolvedNormal
  split <;>
    · simp only [Vec3.dot, Vec3.sub, Vec3.smul]
      linear_combination (-2 * (vx * nx + vy * ny + vz * nz)) * hn

/-- C5: for every incoming unit direction `d` and every unit normal `n`
(`reflectDirection` first flips `n` when `d·n > 0` so that it opposes `d`),
the reflected vector `r` satisfies `r·n = -(d·n)` — angle of incidence
equals angle of reflection — and its magnitude equals that of `d` (stated as
equality of squared norms, which for these exact rationals is equivalent to
`|r| = |d|`).  This is the direction before the `0.8` energy scaling the
shuriken handler applies. -/
theorem reflectDirection_reflects (d n : Vec3)
    (hd : d.normSq = 1) (hn : n.normSq = 1) :
    Vec3.dot (reflectDirection d n) n = -(Vec3.dot d n) ∧
    (reflectDirection d n).normSq = d.normSq := by
  have hraw : (reflectDirectionRaw d n).normSq = 1 := by
    rw [reflectDirectionRaw_normSq d n hn, hd]
  have heq : reflectDirection d n = reflectDirectionRaw d n :=
    Vec3.normalize_of_normSq_one _ hraw
  rw [heq, hraw, hd, reflectDirectionRaw_dot d n hn]
  exact ⟨rfl, rfl⟩

/-- Witness for C5 at the concrete unit direction `(3/5, 0, -4/5)` against
the unit normal `(0, 0, 1)`. -/
theorem reflectDirection_reflects_witness :
    Vec3.normSq ⟨3/5, 0, -4/5⟩ = 1 ∧ Vec3.normSq ⟨0, 0, 1⟩ = 1 ∧
    (Vec3.dot (reflectDirection ⟨3/5, 0, -4/5⟩ ⟨0, 0, 1⟩) ⟨0, 0, 1⟩ =
        -(Vec3.dot ⟨3/5, 0, -4/5⟩ ⟨0, 0, 1⟩) ∧
      (reflectDirection ⟨3/5, 0, -4/5⟩ ⟨0, 0, 1⟩).normSq =
        Vec3.normSq ⟨3/5, 0, -4/5⟩) :=
  ⟨by decide, by decide, reflectDirection_reflects _ _ (by decide) (by decide)⟩

/-- C7: `Bomb.explode` is idempotent — triggering it a second time in the
same tick leaves the state produced by the first call unchanged (no second
animation reset, no second material swap, no second scale change), because
the `exploded` flag guards the body. -/
theorem bombExplode_idempotent (b : BombState) :
    bombExplode (bombExplode b) = bombExplode b := by
  unfold bombExplode
  by_cases h : b.exploded <;> simp [h]

/-- C8: end-to-end scenario B — a launched blade projectile with velocity
`(0,0,-5)` overlapping a wall whose facing normal is `(0,0,1)` comes out of
the wall-collision reaction with velocity `(0,0,4)` (speed 5 scaled by the
`0.8` retention factor along the reflected direction) and its bounce counter
incremented from 0 to 1. -/
theorem shuriken_wall_scenarioB :
    scenarioBShuriken.velocity = ⟨0, 0, -5⟩ ∧
    scenarioBShuriken.launched = true ∧
    scenarioBShuriken.bounces = 0 ∧
    scenarioBWall.forward = ⟨0, 0, 1⟩ ∧
    aabbIntersects (.shuriken scenarioBShuriken) (.wall scenarioBWall) = true ∧
    (shurikenIsColliding scenarioBShuriken (.wall scenarioBWall)).1.velocity
      = ⟨0, 0, 4⟩ ∧
    (shurikenIsColliding scenarioBShuriken (.wall scenarioBWall)).1.bounces = 1 := by
  decide

/-- C9: when the mover and the obstacle share the same horizontal position
(equal X and Z), `resolvePenetrationObstacles` is a no-op: the push vector
is zero after its vertical component is dropped, the zero-vector check
returns early, and the mover's position is unchanged (no division by a zero
length reaches the position, hence no NaN in the source). -/
theorem resolvePenetrationObstacles_noop (moverPos obstaclePos : Vec3)
    (strength : ℚ) (hx : moverPos.x = obstaclePos.x)
    (hz : moverPos.z = obstaclePos.z) :
    resolvePenetrationObstacles moverPos obstaclePos strength = moverPos := by
  obtain ⟨mx, my, mz⟩ := moverPos
  obtain ⟨ox, oy, oz⟩ := obstaclePos
  simp only at hx hz
  subst hx; subst hz
  unfold resolvePenetrationObstacles getPushDirection
  simp [Vec3.sub, Vec3.normalize, Vec3.smul, Vec3.normSq, Vec3.dot]

/-- Witness for C9: mover `(1, 2, 3)` directly above obstacle `(1, 5, 3)`. -/
theorem resolvePenetrationObstacles_noop_witness :
    (Vec3.x ⟨1, 2, 3⟩ = Vec3.x ⟨1, 5, 3⟩) ∧
    (Vec3.z ⟨1, 2, 3⟩ = Vec3.z ⟨1, 5, 3⟩) ∧
    resolvePenetrationObstacles ⟨1, 2, 3⟩ ⟨1, 5, 3⟩ (1/20) = ⟨1, 2, 3⟩ :=
  ⟨by decide, by decide,
   resolvePenetrationObstacles_noop _ _ _ (by decide) (by decide)⟩

/-- C10: the wall's collision handler never mutates the wall's own state —
its transform and configured dimensions are returned unchanged and it never
requests a removal; the only state it may modify is a colliding Kart's
position and speed (all other kart fields are preserved), and any non-Kart
candidate is returned untouched. -/
theorem wallsIsColliding_frame (w : WallState) (t : Entity) :
    (wallsIsColliding w t).1 = w ∧
    (wallsIsColliding w t).2.2 = false ∧
    (∀ k, t = Entity.kart k →
      ∃ p s, (wallsIsColliding w t).2.1 =
        Entity.kart { position := p, speed := s, maxSpeed := k.maxSpeed,
                      steeringAngle := k.steeringAngle }) ∧
    ((∀ k, t ≠ Entity.kart k) → (wallsIsColliding w t).2.1 = t) := by
  cases t
  case kart k0 =>
    by_cases hov : aabbIntersects (Entity.wall w) (Entity.kart k0) = true
    · simp only [wallsIsColliding, hov, if_true]
      refine ⟨trivial, trivial, ?_, ?_⟩
      · intro k1 hk
        cases hk
        exact ⟨_, _, rfl⟩
      · intro h; exact absurd rfl (h k0)
    · simp only [wallsIsColliding, if_neg hov]
      refine ⟨trivial, trivial, ?_, ?_⟩
      · intro k1 hk
        cases hk
        exact ⟨k0.position, k0.speed, rfl⟩
      · intro h; exact absurd rfl (h k0)
  all_goals
    exact ⟨rfl, rfl, fun k hk => Entity.noConfusion hk, fun _ => rfl⟩

/-- Witness for C10 at a concrete wall and overlapping kart. -/
theorem wallsIsColliding_frame_witness :
    (wallsIsColliding frameWall (.kart frameKart)).1 = frameWall ∧
    (wallsIsColliding frameWall (.kart frameKart)).2.2 = false ∧
    (∀ k, Entity.kart frameKart = Entity.kart k →
      ∃ p s, (wallsIsColliding frameWall (.kart frameKart)).2.1 =
        Entity.kart { position := p, speed := s, maxSpeed := k.maxSpeed,
                      steeringAngle := k.steeringAngle }) ∧
    ((∀ k, Entity.kart frameKart ≠ Entity.kart k) →
      (wallsIsColliding frameWall (.kart frameKart)).2.1 = Entity.kart frameKart) :=
  wallsIsColliding_frame frameWall (.kart frameKart)

/-- C3: every overlap of a launched blade projectile with a wall increments
its bounce counter by exactly one, and the projectile is removed from the
scene and scheduled for registry removal exactly when the incremented
counter exceeds 2 — on the 3rd recorded bounce, not on the 1st or 2nd. -/
theorem shuriken_bounce_termination (s : ShurikenState) (w : WallState)
    (hl : s.launched = true)
    (ho : aabbIntersects (.shuriken s) (.wall w) = true) :
    (shurikenIsColliding s (.wall w)).1.bounces = s.bounces + 1 ∧
    ((shurikenIsColliding s (.wall w)).2.2 = true ↔ 2 < s.bounces + 1) ∧
    (shurikenIsColliding s (.wall w)).1.inScene =
      (if 2 < s.bounces + 1 then false else s.inScene) := by
  by_cases h3 : 2 < s.bounces + 1 <;>
    simp [shurikenIsColliding, hl, ho, h3]

/-- Witness for C3: a launched shuriken with two recorded bounces striking a
wall is removed on this, its third, bounce. -/
theorem shuriken_bounce_termination_witness :
    thirdBounceShuriken.launched = true ∧
    aabbIntersects (.shuriken thirdBounceShuriken) (.wall scenarioBWall) = true ∧
    ((shurikenIsColliding thirdBounceShuriken (.wall scenarioBWall)).1.bounces
        = thirdBounceShuriken.bounces + 1 ∧
      ((shurikenIsColliding thirdBounceShuriken (.wall scenarioBWall)).2.2 = true
        ↔ 2 < thirdBounceShuriken.bounces + 1) ∧
      (shurikenIsColliding thirdBounceShuriken (.wall scenarioBWall)).1.inScene =
        (if 2 < thirdBounceShuriken.bounces + 1 then false
         else thirdBounceShuriken.inScene)) :=
  ⟨by decide, by decide,
   shuriken_bounce_termination _ _ (by decide) (by decide)⟩

/-- Counterexample to C4: a blade projectile whose `launched` flag is false,
held in reserve, overlapping a traffic cone.  The cone's handler reacts (it
leaves the scene and schedules its own removal) and the projectile's own
handler reacts too (it detaches and schedules its own removal): neither side
of the cone interaction is gated by the `launched` flag. -/
theorem cone_reacts_to_held_shuriken :
    heldShuriken.launched = false ∧
    (trafficConeIsColliding originCone (.shuriken heldShuriken)).2.2 = true ∧
    (trafficConeIsColliding originCone (.shuriken heldShuriken)).1.inScene = false ∧
    (shurikenIsColliding heldShuriken (.cone originCone)).2.2 = true ∧
    (shurikenIsColliding heldShuriken (.cone originCone)).1.inScene = false := by
  decide

/-- C4 (amended): the `launched` flag gates the blade projectile's wall
reaction and every bomb interaction (the bomb's own handler, the cone's bomb
branch and the track's bomb branch) — a projectile held in reserve triggers
none of those — but the blade-projectile–cone interaction is not gated and
fires regardless of the flag. -/
theorem launched_gates_world_reactions (s : ShurikenState) (b : BombState)
    (c : ConeState) (w : WallState) (tr : TrackState) (t : Entity)
    (hs : s.launched = false) (hb : b.launched = false) :
    shurikenIsColliding s (.wall w) = (s, .wall w, false) ∧
    bombIsColliding b t = (b, t, false) ∧
    trafficConeIsColliding c (.bomb b) = (c, .bomb b, false) ∧
    raceTrackIsColliding tr (.bomb b) = (tr, .bomb b, false) := by
  refine ⟨by simp [shurikenIsColliding, hs], ?_,
          by simp [trafficConeIsColliding, hb],
          by simp [raceTrackIsColliding, hb]⟩
  by_cases hex : b.exploded
  · cases t <;> simp [bombIsColliding, hex]
  · cases t <;> simp [bombIsColliding, hex, hb]

/-- Witness for the amended C4 at concrete held (non-launched) projectiles
overlapping a cone, a wall and the track. -/
theorem launched_gates_world_reactions_witness :
    heldShuriken.launched = false ∧ heldBomb.launched = false ∧
    (shurikenIsColliding heldShuriken (.wall scenarioBWall)
        = (heldShuriken, .wall scenarioBWall, false) ∧
      bombIsColliding heldBomb (.cone originCone)
        = (heldBomb, .cone originCone, false) ∧
      trafficConeIsColliding originCone (.bomb heldBomb)
        = (originCone, .bomb heldBomb, false) ∧
      raceTrackIsColliding groundTrack (.bomb heldBomb)
        = (groundTrack, .bomb heldBomb, false)) :=
  ⟨by decide, by decide,
   launched_gates_world_reactions heldShuriken heldBomb originCone
     scenarioBWall groundTrack (.cone originCone) (by decide) (by decide)⟩

/-! ## Registry sweep lemmas

Handlers can only update entity states and defer removals: `dispatch` leaves
the active list untouched, preserves every registered entity's kind, and
keeps the removal set duplicate-free. -/

theorem dispatch_active (w : World) (a b : Nat) :
    (dispatch w a b).active = w.active := by
  unfold dispatch
  cases w.store.get? a <;> cases w.store.get? b <;> rfl

theorem isCollidingEnt_kind_fst (a b : Entity) :
    (isCollidingEnt a b).1.kind = a.kind := by
  cases a <;> cases b <;>
    (simp only [isCollidingEnt, wallsIsColliding, trafficConeIsColliding,
      shurikenIsColliding, bombIsColliding, raceTrackIsColliding]) <;>
    (repeat' split) <;> rfl

theorem isCollidingEnt_kind_snd (a b : Entity) :
    (isCollidingEnt a b).2.1.kind = b.kind := by
  cases a <;> cases b <;>
    (simp only [isCollidingEnt, wallsIsColliding, trafficConeIsColliding,
      shurikenIsColliding, bombIsColliding, raceTrackIsColliding]) <;>
    (repeat' split) <;> rfl

theorem kindAt_set (store : List Entity) (j : Nat) (e : Entity)
    (hj : (store.get? j).map Entity.kind = some e.kind ∨ store.get? j = none)
    (i : Nat) :
    kindAt (store.set j e) i = kindAt store i := by
  unfold kindAt
  rw [List.get?_set]
  by_cases hji : j = i
  · subst hji
    simp only [if_pos rfl]
    cases h : store.get? j with
    | none => simp [h]
    | some x =>
      simp only [h, Option.map_some]
      rcases hj with hj | hj
      · rw [h] at hj; simpa using hj.symm
      · rw [h] at hj; cases hj
  · simp [if_neg hji]

theorem dispatch_kindAt (w : World) (a b i : Nat) :
    kindAt (dispatch w a b).store i = kindAt w.store i := by
  unfold dispatch
  cases ha : w.store.get? a with
  | none => cases hb : w.store.get? b <;> rfl
  | some ea =>
    cases hb : w.store.get? b with
    | none => rfl
    | some eb =>
      simp only
      rw [kindAt_set, kindAt_set]
      · left; rw [hb, isCollidingEnt_kind_snd]; rfl
      · left
        rw [List.get?_set]
        by_cases hba : b = a
        · subst hba
          have hae : ea = eb := Option.some.inj (ha.symm.trans hb)
          rw [if_pos rfl, hb]
          simp [isCollidingEnt_kind_fst, isCollidingEnt_kind_snd, hae]
        · rw [if_neg hba, ha]
          simp [isCollidingEnt_kind_fst]

theorem dispatch_isKartAt (w : World) (a b i : Nat) :
    isKartAt (dispatch w a b).store i = isKartAt w.store i := by
  unfold isKartAt
  rw [dispatch_kindAt]

theorem addToPending_nodup {p : List Nat} (h : p.Nodup) (id : Nat) :
    (addToPending p id).Nodup := by
  unfold addToPending
  split
  · exact h
  · simp [List.nodup_append, h, *]

theorem dispatch_pending_nodup (w : World) (a b : Nat)
    (hw : w.pending.Nodup) : (dispatch w a b).pending.Nodup := by
  unfold dispatch
  cases w.store.get? a <;> cases w.store.get? b <;> simp only
  any_goals exact hw
  split
  · exact addToPending_nodup hw a
  · exact hw

theorem innerLoop_active (i aId : Nat) (l : List (Nat × Nat)) :
    ∀ w : World, (innerLoop i aId l w).1.active = w.active := by
  induction l with
  | nil => intro w; rfl
  | cons p rest ih =>
    intro w
    obtain ⟨j, bId⟩ := p
    unfold innerLoop
    by_cases hij : i = j
    · simp only [if_pos hij]
      exact ih w
    · simp only [if_neg hij]
      by_cases hk : isKartAt w.store aId = true
      · rw [if_pos hk]
        exact ih w
      · rw [if_neg hk]
        rw [ih _, dispatch_active]

theorem innerLoop_kindAt (i aId : Nat) (l : List (Nat × Nat)) :
    ∀ (w : World) (id : Nat),
      kindAt (innerLoop i aId l w).1.store id = kindAt w.store id := by
  induction l with
  | nil => intro w id; rfl
  | cons p rest ih =>
    intro w id
    obtain ⟨j, bId⟩ := p
    unfold innerLoop
    by_cases hij : i = j
    · simp only [if_pos hij]
      exact ih w id
    · simp only [if_neg hij]
      by_cases hk : isKartAt w.store aId = true
      · rw [if_pos hk]
        exact ih w id
      · rw [if_neg hk]
        rw [ih _ _, dispatch_kindAt]

theorem innerLoop_isKartAt (i aId : Nat) (l : List (Nat × Nat)) (w : World)
    (id : Nat) :
    isKartAt (innerLoop i aId l w).1.store id = isKartAt w.store id := by
  unfold isKartAt
  rw [innerLoop_kindAt]

theorem innerLoop_pending_nodup (i aId : Nat) (l : List (Nat × Nat)) :
    ∀ w : World, w.pending.Nodup → (innerLoop i aId l w).1.pending.Nodup := by
  induction l with
  | nil => intro w hw; exact hw
  | cons p rest ih =>
    intro w hw
    obtain ⟨j, bId⟩ := p
    unfold innerLoop
    by_cases hij : i = j
    · simp only [if_pos hij]
      exact ih w hw
    · simp only [if_neg hij]
      by_cases hk : isKartAt w.store aId = true
      · rw [if_pos hk]
        exact ih w hw
      · rw [if_neg hk]
        exact ih _ (dispatch_pending_nodup w aId bId hw)

theorem innerLoop_trace (i aId : Nat) (l : List (Nat × Nat)) :
    ∀ w : World,
      (innerLoop i aId l w).2 =
        if isKartAt w.store aId = true then []
        else l.flatMap (fun q => if i = q.1 then [] else [(aId, q.2)]) := by
  induction l with
  | nil => intro w; simp [innerLoop]
  | cons p rest ih =>
    intro w
    obtain ⟨j, bId⟩ := p
    unfold innerLoop
    by_cases hij : i = j
    · subst hij
      rw [if_pos rfl, ih w]
      by_cases hk : isKartAt w.store aId = true
      · rw [if_pos hk, if_pos hk]
      · rw [if_neg hk, if_neg hk]
        simp
    · rw [if_neg hij]
      by_cases hk : isKartAt w.store aId = true
      · rw [if_pos hk, ih w, if_pos hk, if_pos hk]
      · rw [if_neg hk]
        simp only [ih (dispatch w aId bId), dispatch_isKartAt]
        simp [hk, hij]

theorem outerLoop_active (entries : List (Nat × Nat)) (l : List (Nat × Nat)) :
    ∀ w : World, (outerLoop entries l w).1.active = w.active := by
  induction l with
  | nil => intro w; rfl
  | cons p rest ih =>
    intro w
    obtain ⟨i, aId⟩ := p
    unfold outerLoop
    simp only
    rw [ih _, innerLoop_active]

theorem outerLoop_isKartAt (entries : List (Nat × Nat)) (l : List (Nat × Nat)) :
    ∀ (w : World) (id : Nat),
      isKartAt (outerLoop entries l w).1.store id = isKartAt w.store id := by
  induction l with
  | nil => intro w id; rfl
  | cons p rest ih =>
    intro w id
    obtain ⟨i, aId⟩ := p
    unfold outerLoop
    simp only
    rw [ih _ _, innerLoop_isKartAt]

theorem outerLoop_pending_nodup (entries : List (Nat × Nat)) (l : List (Nat × Nat)) :
    ∀ w : World, w.pending.Nodup → (outerLoop entries l w).1.pending.Nodup := by
  induction l with
  | nil => intro w hw; exact hw
  | cons p rest ih =>
    intro w hw
    obtain ⟨i, aId⟩ := p
    unfold outerLoop
    simp only
    exact ih _ (innerLoop_pending_nodup _ _ _ _ hw)

theorem enumFrom_flatMap_all (aId j : Nat) (l : List Nat) :
    ∀ n : Nat, j < n →
      (List.enumFrom n l).flatMap
          (fun q => if j = q.1 then [] else [(aId, q.2)])
        = l.map (fun b => (aId, b)) := by
  induction l with
  | nil => intro n _; rfl
  | cons x rest ih =>
    intro n hn
    simp only [List.enumFrom_cons, List.flatMap_cons]
    rw [if_neg (Nat.ne_of_lt hn), ih (n + 1) (Nat.lt_succ_of_lt hn)]
    rfl

theorem enumFrom_flatMap_skip (aId : Nat) (pre : List Nat) :
    ∀ (n : Nat) (x : Nat) (post : List Nat),
      (List.enumFrom n (pre ++ x :: post)).flatMap
          (fun q => if n + pre.length = q.1 then [] else [(aId, q.2)])
        = (pre ++ post).map (fun b => (aId, b)) := by
  induction pre with
  | nil =>
    intro n x post
    simp only [List.nil_append, List.enumFrom_cons, List.flatMap_cons,
      List.length_nil, Nat.add_zero, if_pos rfl, List.nil_append]
    exact enumFrom_flatMap_all aId n post (n + 1) (Nat.lt_succ_self n)
  | cons p pre ih =>
    intro n x post
    simp only [List.cons_append, List.enumFrom_cons, List.flatMap_cons]
    rw [if_neg, ]
    · have harith : n + (p :: pre).length = (n + 1) + pre.length := by
        simp [List.length_cons]; omega
      rw [show (fun (q : Nat × Nat) => if n + (p :: pre).length = q.1 then ([] : List (Nat × Nat)) else [(aId, q.2)])
            = (fun q => if (n + 1) + pre.length = q.1 then [] else [(aId, q.2)]) from by
          funext q; rw [harith]]
      rw [ih (n + 1) x post]
      rfl
    · simp only [List.length_cons]
      omega

theorem tracePairs_congr (st1 st2 : List Entity)
    (h : ∀ id, isKartAt st1 id = isKartAt st2 id) :
    ∀ (post pre : List Nat), tracePairs st1 pre post = tracePairs st2 pre post := by
  intro post
  induction post with
  | nil => intro pre; rfl
  | cons a post ih =>
    intro pre
    unfold tracePairs
    rw [h a, ih]

theorem outerLoop_trace (l : List Nat) :
    ∀ (post pre : List Nat) (w : World), l = pre ++ post →
      (outerLoop l.enum (List.enumFrom pre.length post) w).2
        = tracePairs w.store pre post := by
  intro post
  induction post with
  | nil => intro pre w _; rfl
  | cons a post ih =>
    intro pre w hl
    simp only [List.enumFrom_cons]
    unfold outerLoop
    simp only
    have h1 : (innerLoop pre.length a l.enum w).2 =
        if isKartAt w.store a = true then []
        else (pre ++ post).map (fun b => (a, b)) := by
      rw [innerLoop_trace]
      by_cases hk : isKartAt w.store a = true
      · rw [if_pos hk, if_pos hk]
      · rw [if_neg hk, if_neg hk]
        subst hl
        have hskip := enumFrom_flatMap_skip a pre 0 a post
        simp only [Nat.zero_add] at hskip
        simpa [List.enum] using hskip
    have h2 : (outerLoop l.enum
          (List.enumFrom (pre.length + 1) post)
          (innerLoop pre.length a l.enum w).1).2
        = tracePairs w.store (pre ++ [a]) post := by
      have hlen : (pre ++ [a]).length = pre.length + 1 := by simp
      have hl' : l = (pre ++ [a]) ++ post := by
        rw [hl]; simp
      rw [show pre.length + 1 = (pre ++ [a]).length from hlen.symm]
      rw [ih (pre ++ [a]) _ hl']
      exact tracePairs_congr _ _
        (fun id => innerLoop_isKartAt pre.length a l.enum w id) post (pre ++ [a])
    rw [h1, h2]
    conv_rhs => unfold tracePairs

theorem sweepLoops_trace (w : World) :
    (sweepLoops w).2 = tracePairs w.store [] w.active := by
  unfold sweepLoops
  have h := outerLoop_trace w.active w.active [] w (List.nil_append _).symm
  simpa [List.enum] using h

theorem count_foldl_erase (id : Nat) :
    ∀ (p : List Nat), p.Nodup → ∀ l : List Nat,
      (p.foldl removeColisionObject l).count id
        = l.count id - (if id ∈ p then 1 else 0) := by
  intro p
  induction p with
  | nil => intro _ l; simp
  | cons a p ih =>
    intro hnd l
    rw [List.foldl_cons]
    rw [ih (List.Nodup.of_cons hnd) (removeColisionObject l a)]
    unfold removeColisionObject
    by_cases hia : id = a
    · subst hia
      have hnotp : id ∉ p := (List.nodup_cons.mp hnd).1
      rw [List.count_erase_self]
      simp [hnotp]
    · rw [List.count_erase_of_ne hia]
      simp [hia, List.mem_cons]

/-- C1: deferred-removal safety of one registry tick.  Requesting a removal
during the sweep never touches the active list — a single `dispatch` leaves
`active` unchanged, and the whole double loop returns with `active` exactly
as it started; after the sweep the deferred set is applied, and every entity
in it (however many times its removal was requested — the JS `Set` keeps one
entry) loses exactly one occurrence in `active`, entities not in it losing
none. -/
theorem checkCollision_deferred_removal (w : World) (hp : w.pending.Nodup) :
    (∀ (u : World) (a b : Nat), (dispatch u a b).active = u.active) ∧
    (sweepLoops w).1.active = w.active ∧
    (∀ id : Nat,
      (checkCollision w).active.count id
        = w.active.count id
          - (if id ∈ (sweepLoops w).1.pending then 1 else 0)) := by
  refine ⟨dispatch_active, ?_, ?_⟩
  · unfold sweepLoops
    exact outerLoop_active _ _ w
  · intro id
    unfold checkCollision removeSelectedObjects
    simp only
    have hnd : (sweepLoops w).1.pending.Nodup :=
      outerLoop_pending_nodup _ _ w hp
    rw [count_foldl_erase id ((sweepLoops w).1.pending) hnd
      ((sweepLoops w).1.active)]
    rw [show (sweepLoops w).1.active = w.active from outerLoop_active _ _ w]

/-- Witness for C1: one tick of the two-entity world in which the cone and
the shuriken overlap and both request their own removal. -/
theorem checkCollision_deferred_removal_witness :
    removalWorld.pending.Nodup ∧
    ((∀ (u : World) (a b : Nat), (dispatch u a b).active = u.active) ∧
      (sweepLoops removalWorld).1.active = removalWorld.active ∧
      (∀ id : Nat,
        (checkCollision removalWorld).active.count id
          = removalWorld.active.count id
            - (if id ∈ (sweepLoops removalWorld).1.pending then 1 else 0))) :=
  ⟨by decide, checkCollision_deferred_removal removalWorld (by decide)⟩

/-- C2: one `checkCollision` performs exactly the invocation sequence the
spec prescribes — for each registered entity `A` in registration order, each
other registered entity `B` in registration order, `A.isColliding(B)`,
skipping `A`s of the Vehicle kind entirely — and only after the full double
loop applies the pending removals (first-occurrence erase per deferred
entity) and clears the removal set. -/
theorem checkCollision_trace_spec (w : World) :
    (sweepLoops w).2 = tracePairs w.store [] w.active ∧
    (checkCollision w).active
      = (sweepLoops w).1.pending.foldl removeColisionObject w.active ∧
    (checkCollision w).pending = [] := by
  refine ⟨sweepLoops_trace w, ?_, rfl⟩
  unfold checkCollision removeSelectedObjects
  simp only
  rw [show (sweepLoops w).1.active = w.active from outerLoop_active _ _ w]

/-- As a multiset, the prescribed invocation list is the bind, over the
not-yet-visited entities, of the pairs against every other registered
entity: a presentation from which permutation-invariance is immediate. -/
theorem tracePairs_coe (st : List Entity) :
    ∀ (post pre : List Nat),
      (tracePairs st pre post : Multiset (Nat × Nat))
        = (post : Multiset Nat).bind (fun a =>
            if isKartAt st a = true then 0
            else (((pre : Multiset Nat) + (post : Multiset Nat)).erase a).map
                   (fun b => (a, b))) := by
  intro post
  induction post with
  | nil => intro pre; simp [tracePairs]
  | cons a post ih =>
    intro pre
    have hlist : (pre ++ [a]) ++ post = pre ++ a :: post := by simp
    have hshift : (((pre ++ [a] : List Nat) : Multiset Nat) + (post : Multiset Nat))
        = ((pre : Multiset Nat) + ((a :: post : List Nat) : Multiset Nat)) := by
      rw [Multiset.coe_add, Multiset.coe_add]
      exact congrArg _ hlist
    conv_lhs => unfold tracePairs
    rw [← Multiset.coe_add, ih (pre ++ [a])]
    conv_rhs =>
      rw [← Multiset.cons_coe a post, Multiset.cons_bind]
    congr 1
    · by_cases hk : isKartAt st a = true
      · simp [hk]
      · simp only [hk, Bool.false_eq_true, if_false]
        have hfront2 : ((pre : Multiset Nat) + (a ::ₘ (post : Multiset Nat)))
            = a ::ₘ ((pre : Multiset Nat) + (post : Multiset Nat)) := by
          rw [add_comm (pre : Multiset Nat) _, Multiset.cons_add,
              add_comm ((post : List Nat) : Multiset Nat) _]
        rw [hfront2, Multiset.erase_cons_head, Multiset.coe_add,
            Multiset.map_coe]
    · simp only [hshift]
      rfl

/-- C6 (amended): permuting the active list changes only the sweep order —
the multiset of `isColliding` invocations one `checkCollision` performs is
invariant under permuting the registration order — but, contrary to the
claim, the resulting world state is not: `checkCollision_order_dependent`
exhibits two registrations of the same entities whose outcomes differ. -/
theorem sweep_trace_perm_invariant (w w' : World)
    (hs : w'.store = w.store) (hperm : List.Perm w'.active w.active) :
    ((sweepLoops w').2 : Multiset (Nat × Nat))
      = ((sweepLoops w).2 : Multiset (Nat × Nat)) := by
  rw [sweepLoops_trace, sweepLoops_trace, tracePairs_coe, tracePairs_coe, hs,
      Multiset.coe_eq_coe.mpr hperm]

/-- Counterexample to C6: the ricochet configuration — a launched shuriken
overlapping two parallel walls — reaches different world states under the
two registration orders (its first reflection carries it out of overlap with
the wall behind it, so the number of bounces taken this tick depends on
which wall is swept first). -/
theorem checkCollision_order_dependent :
    ricochetWorldA.store = ricochetWorldB.store ∧
    List.Perm ricochetWorldA.active ricochetWorldB.active ∧
    (checkCollision ricochetWorldA).store
      ≠ (checkCollision ricochetWorldB).store := by
  refine ⟨rfl, by decide, by decide⟩

/-- Witness for the amended C6 at the two ricochet registrations. -/
theorem sweep_trace_perm_invariant_witness :
    ricochetWorldB.store = ricochetWorldA.store ∧
    List.Perm ricochetWorldB.active ricochetWorldA.active ∧
    ((sweepLoops ricochetWorldB).2 : Multiset (Nat × Nat))
      = ((sweepLoops ricochetWorldA).2 : Multiset (Nat × Nat)) :=
  ⟨rfl, by decide, sweep_trace_perm_invariant _ _ rfl (by decide)⟩
